import Mathlib

/-!
Shallow embedding of the Content-Ops automation daemon
(`python-automation/src/content_ops/`): configuration loading,
content synchronization, database backup, and the scheduler loop,
together with theorems settling the specification claims.
-/

set_option maxHeartbeats 1000000

namespace ContentOps

/-- Python exception classes relevant to the modelled code paths.  The code
base defines no custom exception classes; `backupError` and `notFoundError`
stand for the exception classes named by the design document's error taxonomy,
so that statements about raising them can be expressed (no modelled code path
constructs them). -/
inductive PyExc where
  | mysqlError (msg : String)
  | subprocessError (msg : String)
  | osError (msg : String)
  | unboundLocalError (name : String)
  | valueError (msg : String)
  | backupError (msg : String)
  | notFoundError (msg : String)
deriving Repr, DecidableEq

/-- True when the computation raised an exception rather than returning. -/
def raisedExcB {α : Type} : Except PyExc α → Bool
  | .error _ => true
  | .ok _ => false

/-! ## Config loader (`config.py`, `get_config`) -/

/-- The process environment: maps a variable name to its value when set. -/
abbrev Env : Type := String → Option String

/-- `os.getenv(key, dflt)`. -/
def getenvD (env : Env) (key dflt : String) : String := (env key).getD dflt

/-- Accumulate decimal digits; a non-digit character makes the parse fail. -/
def digitsToNat (acc : Nat) : List Char → Option Nat
  | [] => some acc
  | c :: cs =>
    if c.isDigit then digitsToNat (acc * 10 + (c.toNat - 48)) cs else none

/-- Python `int(...)` over the decimal-numeral strings this code feeds it:
an optional sign followed by at least one digit; anything else raises
`ValueError` (modelled as `none`). -/
def pyInt (s : String) : Option Int :=
  match s.toList with
  | [] => none
  | '-' :: [] => none
  | '-' :: cs => (digitsToNat 0 cs).map (fun n => -(n : Int))
  | '+' :: [] => none
  | '+' :: cs => (digitsToNat 0 cs).map (fun n => (n : Int))
  | cs => (digitsToNat 0 cs).map (fun n => (n : Int))

/-- The configuration dictionary built by `get_config`, one field per key. -/
structure Config where
  mysqlHost : String
  mysqlDatabase : String
  mysqlUser : String
  mysqlPassword : String
  redisHost : String
  redisPassword : String
  redisPort : Int
  r2AccountId : String
  r2AccessKeyId : String
  r2SecretAccessKey : String
  r2BucketName : String
  r2Endpoint : String
  site1Domain : String
  site2Domain : String
  backupRetentionDays : Int
  tz : String
deriving Repr, DecidableEq

/-- Failure modes of `get_config`: `badInt` is the `ValueError` raised by
`int(...)` during dictionary construction, `missingRequired` the `ValueError`
raised by the required-keys check (carrying the missing key names). -/
inductive ConfigError where
  | badInt (key : String)
  | missingRequired (keys : List String)
deriving Repr, DecidableEq

/-- The `required_keys` list of `get_config`. -/
def requiredKeys : List String :=
  ["MYSQL_PASSWORD", "REDIS_PASSWORD", "R2_ACCESS_KEY_ID",
   "R2_SECRET_ACCESS_KEY", "R2_ENDPOINT"]

/-- `config.get(key)` for the keys inspected by the required-keys check
(all five are string-valued entries of the dictionary). -/
def Config.getStr (c : Config) (key : String) : String :=
  if key = "MYSQL_PASSWORD" then c.mysqlPassword
  else if key = "REDIS_PASSWORD" then c.redisPassword
  else if key = "R2_ACCESS_KEY_ID" then c.r2AccessKeyId
  else if key = "R2_SECRET_ACCESS_KEY" then c.r2SecretAccessKey
  else if key = "R2_ENDPOINT" then c.r2Endpoint
  else ""

/-- The configuration dictionary literal of `get_config`, with the two
already-converted integer values passed in. -/
def configOf (env : Env) (redisPort retention : Int) : Config :=
  { mysqlHost := getenvD env "MYSQL_HOST" "mysql"
    mysqlDatabase := getenvD env "MYSQL_DATABASE" "content_ops"
    mysqlUser := getenvD env "MYSQL_USER" "content_user"
    mysqlPassword := getenvD env "MYSQL_PASSWORD" ""
    redisHost := getenvD env "REDIS_HOST" "redis"
    redisPassword := getenvD env "REDIS_PASSWORD" ""
    redisPort := redisPort
    r2AccountId := getenvD env "R2_ACCOUNT_ID" ""
    r2AccessKeyId := getenvD env "R2_ACCESS_KEY_ID" ""
    r2SecretAccessKey := getenvD env "R2_SECRET_ACCESS_KEY" ""
    r2BucketName := getenvD env "R2_BUCKET_NAME" "content-ops-backups"
    r2Endpoint := getenvD env "R2_ENDPOINT" ""
    site1Domain := getenvD env "SITE1_DOMAIN" "site1.localhost"
    site2Domain := getenvD env "SITE2_DOMAIN" "site2.localhost"
    backupRetentionDays := retention
    tz := getenvD env "TZ" "UTC" }

/-- `get_config`: builds the configuration dictionary from the environment
(the two `int(...)` conversions happen during construction, in dictionary
order), then fails with `ValueError` when any of the five `required_keys`
is unset or empty (Python falsiness of `config.get(key)`). -/
def get_config (env : Env) : Except ConfigError Config :=
  match pyInt (getenvD env "REDIS_PORT" "6379") with
  | none => .error (.badInt "REDIS_PORT")
  | some redisPort =>
    match pyInt (getenvD env "BACKUP_RETENTION_DAYS" "30") with
    | none => .error (.badInt "BACKUP_RETENTION_DAYS")
    | some retention =>
      let c : Config := configOf env redisPort retention
      let missing := requiredKeys.filter (fun k => c.getStr k = "")
      if missing.isEmpty then .ok c else .error (.missingRequired missing)

/-- The keys among `required_keys` that are unset or empty in `env`. -/
def missingKeysOf (env : Env) : List String :=
  requiredKeys.filter (fun k => getenvD env k "" = "")

/-- True when `get_config` returned a configuration (did not raise). -/
def configOkB (r : Except ConfigError Config) : Bool :=
  match r with
  | .ok _ => true
  | .error _ => false

/-- Environment for the C7 counterexample: the five keys of `required_keys`
are set and non-empty, every other variable (in particular the database host,
database name, user, bucket, site domains and retention) is absent. -/
def envC7 : Env := fun k =>
  if k = "MYSQL_PASSWORD" then some "pw"
  else if k = "REDIS_PASSWORD" then some "rpw"
  else if k = "R2_ACCESS_KEY_ID" then some "ak"
  else if k = "R2_SECRET_ACCESS_KEY" then some "sk"
  else if k = "R2_ENDPOINT" then some "https://r2.example.com"
  else none

/-! ## Content synchronization (`content_sync.py`, `ContentSync`) -/

/-- A row of a WordPress `posts` table, restricted to the columns the code
reads and writes. -/
structure Post where
  id : Nat
  title : String
  content : String
  excerpt : String
  status : String
  modified : Int
  postType : String
  guid : String
deriving Repr, DecidableEq

/-- The WHERE clause of the `get_recent_posts` SELECT: published posts or
pages modified at or after the cutoff time. -/
def recentPred (cutoff : Int) (p : Post) : Bool :=
  decide (cutoff ≤ p.modified) && p.status == "publish" &&
    (p.postType == "post" || p.postType == "page")

/-- ORDER BY `post_modified` DESC: `a` sorts no later than `b` when `a` was
modified at least as recently. -/
def newerEq (a b : Post) : Prop := b.modified ≤ a.modified

instance : DecidableRel newerEq := fun a b =>
  inferInstanceAs (Decidable (b.modified ≤ a.modified))

instance : IsTotal Post newerEq :=
  ⟨fun a b => (le_total b.modified a.modified).elim Or.inl Or.inr⟩

instance : IsTrans Post newerEq :=
  ⟨fun _ _ _ h1 h2 => le_trans h2 h1⟩

/-- The result set of the `get_recent_posts` SELECT when it succeeds:
the matching rows, most-recent-first. -/
def recentPostsQuery (cutoff : Int) (table : List Post) : List Post :=
  List.insertionSort newerEq (table.filter (recentPred cutoff))

/-- Fault oracle for one `get_recent_posts` call: whether establishing the
database connection succeeds, and whether the SELECT succeeds. -/
structure RecentOracle where
  connOk : Bool
  queryOk : Bool
deriving Repr, DecidableEq

/-- `get_recent_posts(site_prefix, hours)` at cutoff `now - hours`.  When the
connection attempt raises `mysql.connector.Error`, the handler returns `[]`,
but the `finally` clause then reads the never-assigned `cursor` local,
raising `UnboundLocalError` out of the call.  When the connection is
established and the SELECT raises, the handler returns `[]` (the cursor is
bound, so `finally` closes it normally).  On success it returns the matching
rows most-recent-first. -/
def get_recent_posts (o : RecentOracle) (cutoff : Int) (table : List Post) :
    Except PyExc (List Post) :=
  if !o.connOk then .error (.unboundLocalError "cursor")
  else if !o.queryOk then .ok []
  else .ok (recentPostsQuery cutoff table)

/-- Fault oracle for one `sync_featured_content` call, over an established
database connection: whether the source SELECT inside `get_recent_posts`
succeeds, which dedup-check SELECTs raise (indexed by source-post position),
which INSERTs raise, and whether the final COMMIT succeeds. -/
structure SyncOracle where
  queryOk : Bool
  checkFails : List Bool
  insertFails : List Bool
  commitOk : Bool
deriving Repr, DecidableEq

/-- The oracle of a fault-free run. -/
def allOk : SyncOracle := ⟨true, [], [], true⟩

/-- MySQL AUTO_INCREMENT for the target `posts` table, as seen by the
transaction. -/
def nextAutoId (t : List Post) : Nat :=
  (t.map (fun p => p.id)).foldr max 0 + 1

/-- The row INSERTed into the target table for source post `p`: author 1,
title prefixed with a featured marker, type `featured_content`, modification
time NOW(), and the derived guid. -/
def featuredCopy (p : Post) (targetSite : String) (now : Int) (newId : Nat) : Post :=
  { id := newId
    title := "[Featured] " ++ p.title
    content := p.content
    excerpt := p.excerpt
    status := "publish"
    modified := now
    postType := "featured_content"
    guid := "featured-" ++ toString p.id ++ "-" ++ targetSite }

/-- The dedup-check SELECT: some row of the (transaction-visible) target
table has exactly this title and type `featured_content`.  Note the title
compared is the raw source title, while `featuredCopy` stores a prefixed
title. -/
def dedupHit (t : List Post) (title : String) : Bool :=
  t.any (fun q => q.title == title && q.postType == "featured_content")

/-- Outcome of the per-post loop of `sync_featured_content`: either a
`mysql.connector.Error` was raised by a check or insert (the except clause
will roll back), or the loop completed with the transaction-visible target
table and the count of rows inserted. -/
inductive LoopResult where
  | raisedMysql
  | completed (tx : List Post) (count : Nat)
deriving Repr, DecidableEq

/-- The per-post loop of `sync_featured_content`: for each source post, run
the dedup-check SELECT, and if no row matches, INSERT a featured copy.  The
SELECT within the open transaction sees the transaction's own INSERTs.
`i` indexes the oracle by source-post position. -/
def syncLoop (site : String) (now : Int) (o : SyncOracle) :
    List Post → Nat → List Post → Nat → LoopResult
  | [], _, tx, count => .completed tx count
  | p :: ps, i, tx, count =>
    if o.checkFails.getD i false then .raisedMysql
    else if dedupHit tx p.title then syncLoop site now o ps (i + 1) tx count
    else if o.insertFails.getD i false then .raisedMysql
    else syncLoop site now o ps (i + 1)
      (tx ++ [featuredCopy p site now (nextAutoId tx)]) (count + 1)

/-- The same loop with no faults: the transaction-visible target table a
completed run produces. -/
def expectedSyncTx (site : String) (now : Int) : List Post → List Post → List Post
  | [], tx => tx
  | p :: ps, tx =>
    if dedupHit tx p.title then expectedSyncTx site now ps tx
    else expectedSyncTx site now ps (tx ++ [featuredCopy p site now (nextAutoId tx)])

/-- Result of one `sync_featured_content` call: the returned boolean, whether
a `mysql.connector.Error` was raised and handled (rollback), the number of
inserted rows that persisted, and the committed target table after the
call. -/
structure SyncOutcome where
  success : Bool
  errored : Bool
  insertCount : Nat
  target : List Post
deriving Repr, DecidableEq

/-- `sync_featured_content(source_site, target_site)`: reads the recent
source posts (a failing source SELECT is absorbed by `get_recent_posts`,
yielding `[]`), returns True at once when there are none; otherwise runs the
dedup/insert loop and COMMITs.  Any `mysql.connector.Error` triggers
ROLLBACK — the committed target table is unchanged — and a False return. -/
def sync_featured_content (o : SyncOracle) (cutoff now : Int)
    (sourceTable targetTable : List Post) (targetSite : String) : SyncOutcome :=
  let sourcePosts := if o.queryOk then recentPostsQuery cutoff sourceTable else []
  if sourcePosts.isEmpty then ⟨true, false, 0, targetTable⟩
  else
    match syncLoop targetSite now o sourcePosts 0 targetTable 0 with
    | .raisedMysql => ⟨false, true, 0, targetTable⟩
    | .completed tx count =>
      if o.commitOk then ⟨true, false, count, tx⟩
      else ⟨false, true, 0, targetTable⟩

/-- The single source post of the C2 failing input. -/
def helloPost : Post :=
  { id := 1, title := "Hello", content := "body", excerpt := "ex",
    status := "publish", modified := 100, postType := "post", guid := "g1" }

/-! ## Database backup (`backup.py`, `DatabaseBackup`) -/

/-- Outcome of the `subprocess.run` invocation of mysqldump: an exit code,
or a raised `SubprocessError`. -/
inductive ProducerOutcome where
  | exitCode (c : Nat)
  | subprocessRaise (msg : String)
deriving Repr, DecidableEq

/-- Fault oracle for one `create_backup` call: whether `open(backup_path)`
succeeds (an `OSError` there is not caught by the `except
subprocess.SubprocessError` clause and escapes), and what the producer
does. -/
structure CreateOracle where
  openOk : Bool
  producer : ProducerOutcome
deriving Repr, DecidableEq

/-- The timestamped artifact file name. -/
def backupFilename (stamp : String) : String :=
  "content_ops_backup_" ++ stamp ++ ".sql"

/-- `create_backup(tables?)`: runs mysqldump into the artifact file.  A
non-zero exit logs and returns `None`; a raised `SubprocessError` is caught,
logged, and `None` is returned; on exit 0 the artifact path is returned.
No path raises or constructs a `BackupError`. -/
def create_backup (o : CreateOracle) (stamp : String) :
    Except PyExc (Option String) :=
  if !o.openOk then .error (.osError "open failed")
  else
    match o.producer with
    | .subprocessRaise _ => .ok none
    | .exitCode c =>
      if c != 0 then .ok none
      else .ok (some ("/app/backups/" ++ backupFilename stamp))

/-- True when `create_backup` did not return an artifact path. -/
def createFailed (o : CreateOracle) (stamp : String) : Bool :=
  match create_backup o stamp with
  | .ok (some _) => false
  | _ => true

/-- Fault oracle for one `upload_backup` call: whether the local artifact
still exists, and whether the R2 `upload_file` call reports success (its own
exceptions are caught inside `R2Storage.upload_file` and yield False). -/
structure UploadOracle where
  fileExists : Bool
  r2UploadOk : Bool
deriving Repr, DecidableEq

/-- `upload_backup(path)`: False when the local file is absent, otherwise
the storage client's success flag. -/
def upload_backup (o : UploadOracle) : Bool :=
  if !o.fileExists then false else o.r2UploadOk

/-- A local artifact as seen by `cleanup_old_backups`: its file name, its
modification time, and whether `unlink()` on it would succeed. -/
structure LocalFile where
  name : String
  mtime : Int
  unlinkOk : Bool
deriving Repr, DecidableEq

/-- The `*.sql` glob of `cleanup_old_backups`: the file name ends in the
four characters `.sql`. -/
def matchesSqlGlob (n : String) : Bool :=
  let cs := n.toList
  decide (cs.drop (cs.length - 4) = ['.', 's', 'q', 'l'])

/-- The deletion condition of `cleanup_old_backups`: the file matches the
`*.sql` glob and its modification time is strictly older than the cutoff. -/
def eligibleForDeletion (cutoff : Int) (f : LocalFile) : Bool :=
  matchesSqlGlob f.name && decide (f.mtime < cutoff)

/-- `cleanup_old_backups(retention_days)` at cutoff `now - retention_days`:
walks the artifacts in directory order deleting the eligible ones.  The
single try/except wraps the whole loop, so the first failing `unlink` raises
out of the loop; the exception is logged at the function boundary and the
remaining artifacts are not examined.  Returns the remaining artifacts and
whether the batch was aborted by such an error. -/
def cleanup_old_backups (cutoff : Int) : List LocalFile → List LocalFile × Bool
  | [] => ([], false)
  | f :: fs =>
    if eligibleForDeletion cutoff f then
      if f.unlinkOk then cleanup_old_backups cutoff fs
      else (f :: fs, true)
    else
      let r := cleanup_old_backups cutoff fs
      (f :: r.1, r.2)

/-- The cleanup step's input within `full_backup_process`. -/
structure CleanupInput where
  cutoff : Int
  files : List LocalFile
deriving Repr, DecidableEq

/-- `full_backup_process()`: create, then upload, then cleanup.  A `None`
from `create_backup` returns False without attempting the upload (the second
component records whether the upload was attempted); an exception escaping
`create_backup` is caught by the outer handler, also returning False.  The
cleanup result is ignored, so the overall result is exactly the upload
result. -/
def full_backup_process (co : CreateOracle) (stamp : String) (uo : UploadOracle)
    (ci : CleanupInput) : Bool × Bool :=
  match create_backup co stamp with
  | .error _ => (false, false)
  | .ok none => (false, false)
  | .ok (some _) =>
    let up := upload_backup uo
    let _ := cleanup_old_backups ci.cutoff ci.files
    (up, true)

/-! ## Scheduler (`scheduler.py`, `AutomationScheduler`) -/

/-- What one tick of the main loop body (`schedule.run_pending()` followed
by `time.sleep(60)`) does: completes normally, lets an `Exception` escape
`run_pending`, or is interrupted by `KeyboardInterrupt`. -/
inductive TickOutcome where
  | normal
  | excRaised (msg : String)
  | kbInterrupt
deriving Repr, DecidableEq

/-- Observable events of the scheduler loop. -/
inductive LoopEvent where
  | ranPending
  | slept
  | loggedLoopError (msg : String)
  | loggedStop
deriving Repr, DecidableEq

/-- `AutomationScheduler.run`'s `while True` loop over a trace of tick
outcomes: a normal tick runs pending jobs and sleeps; an `Exception` is
caught by the loop-boundary handler, logged, and the handler sleeps before
the next iteration; a `KeyboardInterrupt` logs the stop message and breaks.
Returns the event log and whether the loop exited (True only via the
`KeyboardInterrupt` break); an exhausted trace leaves the loop still
running. -/
def schedulerLoop : List TickOutcome → List LoopEvent × Bool
  | [] => ([], false)
  | .normal :: ts =>
    let r := schedulerLoop ts
    (.ranPending :: .slept :: r.1, r.2)
  | .excRaised m :: ts =>
    let r := schedulerLoop ts
    (.loggedLoopError m :: .slept :: r.1, r.2)
  | .kbInterrupt :: _ => ([.loggedStop], true)

/-- The keys of the `job_map` dictionary in `run_job_once`. -/
def jobNames : List String := ["backup", "content_sync", "cleanup", "health_check"]

/-- Behaviour of one underlying job body: it finishes reporting a boolean,
or raises an `Exception`. -/
inductive JobBody where
  | completed (ok : Bool)
  | raisedExc (msg : String)
deriving Repr, DecidableEq

/-- A `_run_*_job` wrapper: executes the body inside `try/except Exception`,
logging any failure; it returns `None` and never lets an `Exception`
escape. -/
def runWrappedJob (b : JobBody) : Except PyExc Unit :=
  match b with
  | .completed _ => .ok ()
  | .raisedExc _ => .ok ()

/-- `run_job_once(job_name)`: looks the name up in `job_map` — an unknown
name logs an error and returns False (no exception is raised; the code
defines no `NotFoundError`) — and calls the wrapped job immediately,
without consulting the `schedule` module's job state (the `_nextRuns`
parameter is never read).  Since the wrappers swallow `Exception`, a known name returns True
whatever the body did.  The second component records which job, if any, was
executed. -/
def run_job_once (bodies : String → JobBody) (_nextRuns : String → Int)
    (name : String) : Except PyExc (Bool × Option String) :=
  if name ∈ jobNames then
    match runWrappedJob (bodies name) with
    | .ok _ => .ok (true, some name)
    | .error _ => .ok (false, some name)
  else .ok (false, none)

/-! ## Full synchronization (`content_sync.py`, `run_full_sync`) -/

/-- What one constituent step of `run_full_sync` did: returned a boolean
(all the step methods catch `mysql.connector.Error` themselves and return
False) or raised an exception past its own handler. -/
inductive StepOutcome where
  | returned (b : Bool)
  | raised (msg : String)
deriving Repr, DecidableEq

/-- True when the step returned rather than raised. -/
def StepOutcome.isReturn : StepOutcome → Bool
  | .returned _ => true
  | .raised _ => false

/-- Outcomes of the seven steps of one `run_full_sync` invocation, in call
order: featured sync site1→site2, featured sync site2→site1, cross-site
links, user sync site1→site2, user sync site2→site1, revision cleanup for
site1, revision cleanup for site2. -/
structure FullSyncOracle where
  featuredA : StepOutcome
  featuredB : StepOutcome
  crossLinks : StepOutcome
  usersA : StepOutcome
  usersB : StepOutcome
  revisionsA : StepOutcome
  revisionsB : StepOutcome
deriving Repr, DecidableEq

/-- The seven step outcomes in call order. -/
def fullSyncSteps (o : FullSyncOracle) : List StepOutcome :=
  [o.featuredA, o.featuredB, o.crossLinks, o.usersA, o.usersB,
   o.revisionsA, o.revisionsB]

/-- Sequential execution of the step calls: return values are discarded; the
first raised exception jumps to the handler, which logs and returns False;
reaching the end returns True. -/
def runStepsSeq : List StepOutcome → Bool
  | [] => true
  | .returned _ :: ss => runStepsSeq ss
  | .raised _ :: _ => false

/-- `run_full_sync()`: runs the seven steps, ignoring every step's returned
boolean; the `finally` clause closes the database connection in all
cases. -/
def run_full_sync (o : FullSyncOracle) : Bool :=
  runStepsSeq (fullSyncSteps o)

/-! ## Helper lemmas -/

lemma schedulerLoop_stopped (ts : List TickOutcome) :
    (schedulerLoop ts).2 = true ↔ TickOutcome.kbInterrupt ∈ ts := by
  induction ts with
  | nil => simp [schedulerLoop]
  | cons t ts ih =>
    cases t with
    | normal => simp [schedulerLoop, ih]
    | excRaised m => simp [schedulerLoop, ih]
    | kbInterrupt => simp [schedulerLoop]

lemma schedulerLoop_append (pre rest : List TickOutcome)
    (h : TickOutcome.kbInterrupt ∉ pre) :
    schedulerLoop (pre ++ rest) =
      ((schedulerLoop pre).1 ++ (schedulerLoop rest).1, (schedulerLoop rest).2) := by
  induction pre with
  | nil => simp [schedulerLoop]
  | cons t pre ih =>
    have h' : TickOutcome.kbInterrupt ∉ pre := fun hm => h (List.mem_cons_of_mem _ hm)
    cases t with
    | normal => simp [schedulerLoop, ih h']
    | excRaised m => simp [schedulerLoop, ih h']
    | kbInterrupt => exact absurd (List.mem_cons_self _ _) h

lemma syncLoop_completed_eq (site : String) (now : Int) (o : SyncOracle) :
    ∀ (ps : List Post) (i : Nat) (tx : List Post) (c : Nat) (tx' : List Post) (c' : Nat),
      syncLoop site now o ps i tx c = .completed tx' c' →
      tx' = expectedSyncTx site now ps tx := by
  intro ps
  induction ps with
  | nil =>
    intro i tx c tx' c' h
    simp only [syncLoop, LoopResult.completed.injEq] at h
    simp [expectedSyncTx, h.1.symm]
  | cons p ps ih =>
    intro i tx c tx' c' h
    simp only [syncLoop] at h
    by_cases hc : o.checkFails.getD i false = true
    · rw [if_pos hc] at h; exact absurd h (by simp)
    · rw [if_neg hc] at h
      by_cases hd : dedupHit tx p.title = true
      · rw [if_pos hd] at h
        simpa [expectedSyncTx, hd] using ih (i + 1) tx c tx' c' h
      · rw [if_neg hd] at h
        by_cases hi : o.insertFails.getD i false = true
        · rw [if_pos hi] at h; exact absurd h (by simp)
        · rw [if_neg hi] at h
          simpa [expectedSyncTx, hd] using
            ih (i + 1) (tx ++ [featuredCopy p site now (nextAutoId tx)]) (c + 1) tx' c' h

lemma configOf_required_filter (env : Env) (rp rt : Int) :
    requiredKeys.filter (fun k => (configOf env rp rt).getStr k = "") =
      missingKeysOf env := by
  simp [requiredKeys, missingKeysOf, Config.getStr, configOf, getenvD,
    List.filter_cons]

lemma runStepsSeq_eq_all (ss : List StepOutcome) :
    runStepsSeq ss = ss.all StepOutcome.isReturn := by
  induction ss with
  | nil => simp [runStepsSeq]
  | cons s ss ih =>
    cases s with
    | returned b => simp [runStepsSeq, StepOutcome.isReturn, ih]
    | raised m => simp [runStepsSeq, StepOutcome.isReturn]

/-! ## Claim theorems -/

/-- C1: every `Exception` escaping one tick of the scheduler loop is caught
at the loop boundary, logged, followed by a sleep, and the loop goes on to
process the following ticks; the loop exits exactly when a tick raises
`KeyboardInterrupt`, never because of an `Exception` from one tick. -/
theorem C1_loop_exception_containment (ts : List TickOutcome) :
    ((schedulerLoop ts).2 = true ↔ TickOutcome.kbInterrupt ∈ ts) ∧
    (∀ (pre : List TickOutcome) (m : String) (post : List TickOutcome),
      ts = pre ++ TickOutcome.excRaised m :: post →
      TickOutcome.kbInterrupt ∉ pre →
      schedulerLoop ts =
        ((schedulerLoop pre).1 ++
            LoopEvent.loggedLoopError m :: LoopEvent.slept :: (schedulerLoop post).1,
          (schedulerLoop post).2)) := by
  refine ⟨schedulerLoop_stopped ts, ?_⟩
  intro pre m post hts hpre
  subst hts
  rw [schedulerLoop_append pre (TickOutcome.excRaised m :: post) hpre]
  simp [schedulerLoop]

/-- C1 witness: in the concrete trace normal · exception · normal, the
exception is logged, the loop sleeps, continues with the final tick, and
does not exit. -/
theorem C1_loop_exception_containment_witness :
    schedulerLoop [TickOutcome.normal, TickOutcome.excRaised "boom", TickOutcome.normal] =
      ((schedulerLoop [TickOutcome.normal]).1 ++
          LoopEvent.loggedLoopError "boom" :: LoopEvent.slept ::
            (schedulerLoop [TickOutcome.normal]).1,
        (schedulerLoop [TickOutcome.normal]).2) :=
  (C1_loop_exception_containment
      [TickOutcome.normal, TickOutcome.excRaised "boom", TickOutcome.normal]).2
    [TickOutcome.normal] "boom" [TickOutcome.normal] rfl (by decide)

/-- C2 (code bug): `sync_featured_content` is not idempotent.  With a single
recent source post titled Hello and an initially empty target, the first
call inserts one featured copy (stored with the prefixed title), and a
second call with no new source posts inserts again — its dedup check looks
for the raw source title with type `featured_content`, which never matches
the rows the first call inserted — leaving two copies in the target. -/
theorem C2_second_run_inserts_again :
    (sync_featured_content allOk 0 100 [helloPost] [] "site2").insertCount = 1 ∧
    (sync_featured_content allOk 0 100 [helloPost]
        (sync_featured_content allOk 0 100 [helloPost] [] "site2").target
        "site2").insertCount = 1 ∧
    (sync_featured_content allOk 0 100 [helloPost]
        (sync_featured_content allOk 0 100 [helloPost] [] "site2").target
        "site2").target.length = 2 := by
  decide

/-- C3: one `sync_featured_content` call is all-or-nothing: when a database
error occurs the transaction is rolled back — the committed target table is
exactly the one before the call — and the call returns False; when the call
returns True the committed target table is exactly the completed
transaction, holding every insert the dedup/insert loop performs on the
recent source posts. -/
theorem C3_sync_transaction_atomicity (o : SyncOracle) (cutoff now : Int)
    (src tgt : List Post) (site : String) :
    ((sync_featured_content o cutoff now src tgt site).errored = true →
      (sync_featured_content o cutoff now src tgt site).success = false ∧
      (sync_featured_content o cutoff now src tgt site).target = tgt) ∧
    ((sync_featured_content o cutoff now src tgt site).success = true →
      (sync_featured_content o cutoff now src tgt site).target =
        expectedSyncTx site now
          (if o.queryOk then recentPostsQuery cutoff src else []) tgt) ∧
    (sync_featured_content o cutoff now src tgt site).success =
      !(sync_featured_content o cutoff now src tgt site).errored := by
  unfold sync_featured_content
  by_cases hempty : (if o.queryOk then recentPostsQuery cutoff src else []).isEmpty = true
  · rw [if_pos hempty]
    refine ⟨by simp, fun _ => ?_, rfl⟩
    have : (if o.queryOk then recentPostsQuery cutoff src else []) = [] :=
      List.isEmpty_iff.mp hempty
    simp [this, expectedSyncTx]
  · rw [if_neg hempty]
    cases hloop : syncLoop site now o
        (if o.queryOk then recentPostsQuery cutoff src else []) 0 tgt 0 with
    | raisedMysql => exact ⟨fun _ => ⟨rfl, rfl⟩, by simp, rfl⟩
    | completed tx count =>
      dsimp only
      by_cases hcommit : o.commitOk = true
      · rw [if_pos hcommit]
        refine ⟨by simp, fun _ => ?_, rfl⟩
        exact syncLoop_completed_eq site now o _ 0 tgt 0 tx count hloop
      · rw [if_neg hcommit]
        exact ⟨fun _ => ⟨rfl, rfl⟩, by simp, rfl⟩

/-- C3 witness: with an oracle whose first INSERT raises, the call reports
failure and the committed target table is unchanged (empty). -/
theorem C3_sync_transaction_atomicity_witness :
    (sync_featured_content ⟨true, [], [true], true⟩ 0 100 [helloPost] [] "site2").success
        = false ∧
    (sync_featured_content ⟨true, [], [true], true⟩ 0 100 [helloPost] [] "site2").target
        = [] :=
  (C3_sync_transaction_atomicity ⟨true, [], [true], true⟩ 0 100 [helloPost] [] "site2").1
    (by decide)

/-- C4: `full_backup_process` succeeds exactly when the upload step
succeeds: its result does not depend on the cleanup step's input at all,
a failed `create_backup` yields False with the upload never attempted, and
a successful `create_backup` yields exactly the upload result together with
an attempted upload. -/
theorem C4_full_backup_result (co : CreateOracle) (stamp : String)
    (uo : UploadOracle) (ci ci' : CleanupInput) :
    full_backup_process co stamp uo ci = full_backup_process co stamp uo ci' ∧
    (createFailed co stamp = true →
      full_backup_process co stamp uo ci = (false, false)) ∧
    (createFailed co stamp = false →
      full_backup_process co stamp uo ci = (upload_backup uo, true)) := by
  unfold full_backup_process createFailed
  cases h : create_backup co stamp with
  | error e => simp
  | ok p => cases p <;> simp

/-- C4 witness: with a producer that exits non-zero, the overall result is
failure and the upload is not attempted. -/
theorem C4_full_backup_result_witness :
    full_backup_process ⟨true, ProducerOutcome.exitCode 2⟩ "20240101_020000"
        ⟨true, true⟩ ⟨0, []⟩ = (false, false) :=
  (C4_full_backup_result ⟨true, ProducerOutcome.exitCode 2⟩ "20240101_020000"
      ⟨true, true⟩ ⟨0, []⟩ ⟨0, []⟩).2.1 rfl

/-- C5 counterexample: when the producer reports exit status 1,
`create_backup` does not fail with a `BackupError` — it returns normally,
with the `None` failure value (the code defines no `BackupError` and raises
nothing on this path). -/
theorem C5_no_backup_error_counterexample :
    create_backup ⟨true, ProducerOutcome.exitCode 1⟩ "20240101_020000" =
      Except.ok none ∧
    raisedExcB (create_backup ⟨true, ProducerOutcome.exitCode 1⟩ "20240101_020000") =
      false :=
  ⟨rfl, rfl⟩

/-- C5 (amended): when the producer reports a non-zero exit status or raises
a `SubprocessError`, `create_backup` signals failure by returning `None`
(raising no exception); on exit status 0 it returns the path of the newly
created artifact. -/
theorem C5_create_backup_amended (o : CreateOracle) (stamp : String)
    (hopen : o.openOk = true) :
    (∀ c : Nat, o.producer = ProducerOutcome.exitCode c → c ≠ 0 →
      create_backup o stamp = Except.ok none) ∧
    (∀ m : String, o.producer = ProducerOutcome.subprocessRaise m →
      create_backup o stamp = Except.ok none) ∧
    (o.producer = ProducerOutcome.exitCode 0 →
      create_backup o stamp =
        Except.ok (some ("/app/backups/" ++ backupFilename stamp))) ∧
    raisedExcB (create_backup o stamp) = false := by
  unfold create_backup
  rw [hopen]
  refine ⟨fun c hc hne => ?_, fun m hm => ?_, fun h0 => ?_, ?_⟩
  · simp [hc, hne]
  · simp [hm]
  · simp [h0]
  · cases hp : o.producer with
    | exitCode c =>
      by_cases hc : c = 0 <;> simp [hc, raisedExcB]
    | subprocessRaise m => simp [raisedExcB]

/-- C5 witness: a producer that exits 0 yields the timestamped artifact
path. -/
theorem C5_create_backup_amended_witness :
    create_backup ⟨true, ProducerOutcome.exitCode 0⟩ "20240101_020000" =
      Except.ok (some ("/app/backups/" ++ backupFilename "20240101_020000")) :=
  (C5_create_backup_amended ⟨true, ProducerOutcome.exitCode 0⟩ "20240101_020000"
      rfl).2.2.1 rfl

/-- C6 counterexample: running a job under a name that matches no entry of
`job_map` does not fail with a `NotFoundError` — `run_job_once` returns
normally with False (the code defines no `NotFoundError` and raises
nothing). -/
theorem C6_no_not_found_error_counterexample :
    run_job_once (fun _ => JobBody.completed true) (fun _ => 0) "nosuch" =
      Except.ok (false, none) ∧
    raisedExcB (run_job_once (fun _ => JobBody.completed true) (fun _ => 0) "nosuch") =
      false := by
  constructor
  · unfold run_job_once
    rw [if_neg (by decide)]
  · unfold run_job_once raisedExcB
    rw [if_neg (by decide)]

/-- C6 (amended): an unregistered name makes `run_job_once` log an error and
return False (no exception); a registered name executes that job immediately
and returns True, independently of the schedule state and of whatever the
job body does (the wrappers swallow every `Exception`). -/
theorem C6_run_job_once_amended (bodies bodies' : String → JobBody)
    (nr nr' : String → Int) (name : String) :
    (name ∈ jobNames →
      run_job_once bodies nr name = Except.ok (true, some name)) ∧
    (name ∉ jobNames →
      run_job_once bodies nr name = Except.ok (false, none)) ∧
    run_job_once bodies nr name = run_job_once bodies' nr' name := by
  unfold run_job_once runWrappedJob
  by_cases h : name ∈ jobNames
  · rw [if_pos h, if_pos h]
    refine ⟨fun _ => ?_, fun hn => absurd h hn, ?_⟩
    · cases bodies name <;> rfl
    · cases bodies name <;> cases bodies' name <;> rfl
  · rw [if_neg h, if_neg h]
    exact ⟨fun hm => absurd hm h, fun _ => rfl, rfl⟩

/-- C6 witness: the registered name backup executes immediately and returns
True even though its body raises internally. -/
theorem C6_run_job_once_amended_witness :
    run_job_once (fun _ => JobBody.raisedExc "db down") (fun _ => 0) "backup" =
      Except.ok (true, some "backup") :=
  (C6_run_job_once_amended (fun _ => JobBody.raisedExc "db down")
      (fun _ => JobBody.completed true) (fun _ => 0) (fun _ => 1) "backup").1
    (by decide)

/-- C7 counterexample: an environment holding only the five keys of
`required_keys` — with the database host, database name, database user,
object-storage bucket, both site domain names and the backup retention all
absent — does not make configuration loading fail: `get_config` returns a
configuration (built from defaults). -/
theorem C7_defaults_counterexample :
    configOkB (get_config envC7) = true ∧
    envC7 "MYSQL_HOST" = none ∧
    envC7 "MYSQL_DATABASE" = none ∧
    envC7 "MYSQL_USER" = none ∧
    envC7 "R2_BUCKET_NAME" = none ∧
    envC7 "SITE1_DOMAIN" = none ∧
    envC7 "SITE2_DOMAIN" = none ∧
    envC7 "BACKUP_RETENTION_DAYS" = none := by
  decide

/-- C7 (amended): `get_config` fails with a `ValueError` exactly when one of
the five `required_keys` — MYSQL_PASSWORD, REDIS_PASSWORD, R2_ACCESS_KEY_ID,
R2_SECRET_ACCESS_KEY, R2_ENDPOINT — is unset or empty (given that the two
integer settings parse); every other setting, including database host and
name, user, bucket, the site domains and the retention days, falls back to
its default and never causes a missing-setting failure. -/
theorem C7_required_settings_amended (env : Env)
    (h1 : (pyInt (getenvD env "REDIS_PORT" "6379")).isSome = true)
    (h2 : (pyInt (getenvD env "BACKUP_RETENTION_DAYS" "30")).isSome = true) :
    (missingKeysOf env = [] → configOkB (get_config env) = true) ∧
    (missingKeysOf env ≠ [] →
      get_config env =
        Except.error (ConfigError.missingRequired (missingKeysOf env))) := by
  rcases Option.isSome_iff_exists.mp h1 with ⟨rp, hrp⟩
  rcases Option.isSome_iff_exists.mp h2 with ⟨rt, hrt⟩
  unfold get_config
  rw [hrp, hrt]
  dsimp only
  rw [configOf_required_filter env rp rt]
  constructor
  · intro h
    rw [h]
    rfl
  · intro h
    have hne : ¬ ((missingKeysOf env).isEmpty = true) := by
      simpa [List.isEmpty_iff] using h
    rw [if_neg hne]

/-- C7 witness: with the five required keys present and everything else
absent, both integer settings parse from their defaults and loading
succeeds. -/
theorem C7_required_settings_amended_witness :
    configOkB (get_config envC7) = true :=
  (C7_required_settings_amended envC7 (by decide) (by decide)).1 (by decide)

/-- C8 counterexample: with cutoff 100, the artifact b.sql (modification
time 40, well past the cutoff, deletable) is not deleted because the earlier
artifact a.sql failed to delete: the single try/except wraps the whole loop,
so the first `unlink` error aborts the batch and the remaining artifacts are
never examined. -/
theorem C8_batch_abort_counterexample :
    cleanup_old_backups 100
        [{ name := "a.sql", mtime := 50, unlinkOk := false },
         { name := "b.sql", mtime := 40, unlinkOk := true }] =
      ([{ name := "a.sql", mtime := 50, unlinkOk := false },
        { name := "b.sql", mtime := 40, unlinkOk := true }], true) ∧
    eligibleForDeletion 100 { name := "b.sql", mtime := 40, unlinkOk := true } =
      true := by
  constructor
  · rfl
  · rfl

/-- C8 (amended): an error deleting one artifact is caught at the function
boundary (it never propagates) and aborts the remainder of the batch: when
no eligible deletion fails, exactly the .sql artifacts older than the cutoff
are deleted; an artifact not older than the cutoff always survives; and at
the first artifact whose deletion fails, the earlier artifacts have been
processed by the retention rule while the failing artifact and everything
after it remain untouched. -/
theorem C8_cleanup_amended (cutoff : Int) :
    (∀ fs : List LocalFile,
      (∀ f ∈ fs, eligibleForDeletion cutoff f = true → f.unlinkOk = true) →
      cleanup_old_backups cutoff fs =
        (fs.filter (fun f => !eligibleForDeletion cutoff f), false)) ∧
    (∀ (fs : List LocalFile) (f : LocalFile), f ∈ fs →
      eligibleForDeletion cutoff f = false →
      f ∈ (cleanup_old_backups cutoff fs).1) ∧
    (∀ (pre post : List LocalFile) (f : LocalFile),
      (∀ g ∈ pre, eligibleForDeletion cutoff g = true → g.unlinkOk = true) →
      eligibleForDeletion cutoff f = true → f.unlinkOk = false →
      cleanup_old_backups cutoff (pre ++ f :: post) =
        (pre.filter (fun g => !eligibleForDeletion cutoff g) ++ f :: post, true)) := by
  refine ⟨?_, ?_, ?_⟩
  · intro fs
    induction fs with
    | nil => intro _; rfl
    | cons f fs ih =>
      intro h
      have hrest : ∀ g ∈ fs, eligibleForDeletion cutoff g = true → g.unlinkOk = true :=
        fun g hg => h g (List.mem_cons_of_mem _ hg)
      by_cases he : eligibleForDeletion cutoff f = true
      · have hu : f.unlinkOk = true := h f (List.mem_cons_self f fs) he
        simp [cleanup_old_backups, he, hu, ih hrest, List.filter_cons]
      · simp [cleanup_old_backups, he, ih hrest, List.filter_cons]
  · intro fs
    induction fs with
    | nil => intro f hf; exact absurd hf (List.not_mem_nil f)
    | cons g fs ih =>
      intro f hf hfe
      rcases List.mem_cons.mp hf with hfg | hfs
      · subst hfg
        by_cases he : eligibleForDeletion cutoff f = true
        · exact absurd he (by simp [hfe])
        · simp [cleanup_old_backups, he]
      · by_cases he : eligibleForDeletion cutoff g = true
        · by_cases hu : g.unlinkOk = true
          · simpa [cleanup_old_backups, he, hu] using ih f hfs hfe
          · simp [cleanup_old_backups, he, hu, List.mem_cons_of_mem _ hfs]
        · have := ih f hfs hfe
          simp [cleanup_old_backups, he, this]
  · intro pre
    induction pre with
    | nil =>
      intro post f _ he hu
      simp [cleanup_old_backups, he, hu]
    | cons g pre ih =>
      intro post f h he hu
      have hg := h g (List.mem_cons_self g pre)
      have hrest : ∀ x ∈ pre, eligibleForDeletion cutoff x = true → x.unlinkOk = true :=
        fun x hx => h x (List.mem_cons_of_mem _ hx)
      by_cases hge : eligibleForDeletion cutoff g = true
      · have hgu : g.unlinkOk = true := hg hge
        simp [cleanup_old_backups, hge, hgu, ih post f hrest he hu, List.filter_cons]
      · simp [cleanup_old_backups, hge, ih post f hrest he hu, List.filter_cons]

/-- C8 witness: with no failing deletions, the artifact older than the
cutoff is deleted, the younger one retained, and the batch completes. -/
theorem C8_cleanup_amended_witness :
    cleanup_old_backups 100
        [{ name := "old.sql", mtime := 50, unlinkOk := true },
         { name := "recent.sql", mtime := 200, unlinkOk := true }] =
      ([{ name := "old.sql", mtime := 50, unlinkOk := true },
        { name := "recent.sql", mtime := 200, unlinkOk := true }].filter
          (fun f => !eligibleForDeletion 100 f), false) :=
  (C8_cleanup_amended 100).1
    [{ name := "old.sql", mtime := 50, unlinkOk := true },
     { name := "recent.sql", mtime := 200, unlinkOk := true }]
    (by intro f hf _; fin_cases hf <;> rfl)

/-- C9: over an established database connection, a failing `get_recent_posts`
SELECT makes the call return the empty list rather than raise; a successful
SELECT returns exactly the published posts and pages modified within the
window, ordered most-recent-first. -/
theorem C9_recent_posts_degrade (o : RecentOracle) (cutoff : Int)
    (table : List Post) (hconn : o.connOk = true) :
    (o.queryOk = false → get_recent_posts o cutoff table = Except.ok []) ∧
    (o.queryOk = true →
      get_recent_posts o cutoff table =
        Except.ok (recentPostsQuery cutoff table) ∧
      (recentPostsQuery cutoff table).Perm (table.filter (recentPred cutoff)) ∧
      List.Sorted newerEq (recentPostsQuery cutoff table)) := by
  constructor
  · intro hq
    simp [get_recent_posts, hconn, hq]
  · intro hq
    refine ⟨by simp [get_recent_posts, hconn, hq], ?_, ?_⟩
    · exact List.perm_insertionSort newerEq (table.filter (recentPred cutoff))
    · exact List.sorted_insertionSort newerEq (table.filter (recentPred cutoff))

/-- C9 witness: with connection and query both succeeding on a two-post
table, the call returns the query result, a permutation of the matching
rows, most-recent-first. -/
theorem C9_recent_posts_degrade_witness :
    get_recent_posts ⟨true, true⟩ 0 [helloPost] =
      Except.ok (recentPostsQuery 0 [helloPost]) ∧
    (recentPostsQuery 0 [helloPost]).Perm ([helloPost].filter (recentPred 0)) ∧
    List.Sorted newerEq (recentPostsQuery 0 [helloPost]) :=
  (C9_recent_posts_degrade ⟨true, true⟩ 0 [helloPost] rfl).2 rfl

/-- C10: `run_full_sync` returns True exactly when every constituent step
call returns (rather than raising past its own handler), whatever booleans
the steps return — in particular it reports success when all seven steps
report failure. -/
theorem C10_full_sync_ignores_step_results (o : FullSyncOracle) :
    run_full_sync o = (fullSyncSteps o).all StepOutcome.isReturn ∧
    run_full_sync
        ⟨StepOutcome.returned false, StepOutcome.returned false,
          StepOutcome.returned false, StepOutcome.returned false,
          StepOutcome.returned false, StepOutcome.returned false,
          StepOutcome.returned false⟩ = true := by
  exact ⟨runStepsSeq_eq_all (fullSyncSteps o), rfl⟩

end ContentOps
